import Mathlib

/-!
Shallow embedding of the Vectra Automated Response third-party firewall
adapters (`src/common.py`, `src/third_party_clients/pan/pan.py`,
`src/third_party_clients/sophos/sophos.py`) and proofs about the adapter
contract.

Python strings are modelled as Lean `String`; the Sophos firewall's named
IPHost resource is modelled by the text of its `ListOfIPAddresses` field.
HTTP traffic is modelled explicitly: each operation returns the requests it
issued, and response status codes are supplied as oracle parameters.
-/

namespace Py

/-- Characters of `s.split(sep)` for a one-character separator `sep`,
at the `List Char` level: CPython `str.split` with an explicit separator
returns `[""]` on the empty string and keeps empty fields. -/
def splitOnCharL (sep : Char) : List Char → List (List Char)
  | [] => [[]]
  | c :: cs =>
    if c = sep then [] :: splitOnCharL sep cs
    else
      match splitOnCharL sep cs with
      | [] => [[c]]
      | p :: ps => (c :: p) :: ps

/-- Characters of `sep.join(parts)` for a one-character separator. -/
def joinOnCharL (sep : Char) : List (List Char) → List Char
  | [] => []
  | [p] => p
  | p :: q :: ps => p ++ sep :: joinOnCharL sep (q :: ps)

/-- Python `s.split(sep)` for a one-character separator. -/
def splitOnChar (sep : Char) (s : String) : List String :=
  (splitOnCharL sep s.data).map String.mk

/-- Python `sep.join(parts)` for a one-character separator. -/
def joinOnChar (sep : Char) (parts : List String) : String :=
  String.mk (joinOnCharL sep (parts.map String.data))

theorem splitOnCharL_exists_cons (sep : Char) (l : List Char) :
    ∃ p ps, splitOnCharL sep l = p :: ps := by
  induction l with
  | nil => exact ⟨[], [], rfl⟩
  | cons c cs ih =>
    obtain ⟨p, ps, hps⟩ := ih
    by_cases hc : c = sep
    · exact ⟨[], splitOnCharL sep cs, by simp [splitOnCharL, hc]⟩
    · exact ⟨c :: p, ps, by simp [splitOnCharL, hc, hps]⟩

theorem splitOnCharL_ne_nil (sep : Char) (l : List Char) :
    splitOnCharL sep l ≠ [] := by
  obtain ⟨p, ps, hps⟩ := splitOnCharL_exists_cons sep l
  simp [hps]

/-- Every field produced by splitting on `sep` is free of `sep`. -/
theorem splitOnCharL_no_sep (sep : Char) (l : List Char) :
    ∀ p ∈ splitOnCharL sep l, sep ∉ p := by
  induction l with
  | nil =>
    intro p hp
    simp [splitOnCharL] at hp
    simp [hp]
  | cons c cs ih =>
    intro p hp
    by_cases hc : c = sep
    · simp [splitOnCharL, hc] at hp
      rcases hp with hp | hp
      · simp [hp]
      · exact ih p hp
    · obtain ⟨q, qs, hqs⟩ := splitOnCharL_exists_cons sep cs
      simp [splitOnCharL, hc, hqs] at hp
      rcases hp with hp | hp
      · subst hp
        have hq : sep ∉ q := ih q (by simp [hqs])
        simp [hc, hq]
        intro h
        exact hc h.symm
      · exact ih p (by simp [hqs, hp])

/-- Joining the fields of a split recovers the original character list. -/
theorem joinOnCharL_splitOnCharL (sep : Char) (l : List Char) :
    joinOnCharL sep (splitOnCharL sep l) = l := by
  induction l with
  | nil => rfl
  | cons c cs ih =>
    by_cases hc : c = sep
    · obtain ⟨p, ps, hps⟩ := splitOnCharL_exists_cons sep cs
      rw [hps] at ih
      simp [splitOnCharL, hc, hps, joinOnCharL, ih]
    · obtain ⟨p, ps, hps⟩ := splitOnCharL_exists_cons sep cs
      rw [hps] at ih
      cases ps with
      | nil => simp [splitOnCharL, hc, hps, joinOnCharL, joinOnCharL] at ih ⊢; simp [ih]
      | cons q qs =>
        simp [splitOnCharL, hc, hps, joinOnCharL] at ih ⊢
        simp [ih]

/-- A character list free of `sep` splits to the single field it is. -/
theorem splitOnCharL_of_no_sep (sep : Char) (p : List Char) (h : sep ∉ p) :
    splitOnCharL sep p = [p] := by
  induction p with
  | nil => rfl
  | cons c cs ih =>
    simp at h
    have hc : ¬ c = sep := fun hcc => h.1 hcc.symm
    simp [splitOnCharL, hc, ih h.2]

theorem splitOnCharL_append (sep : Char) (p r : List Char) (h : sep ∉ p) :
    splitOnCharL sep (p ++ sep :: r) = p :: splitOnCharL sep r := by
  induction p with
  | nil => simp [splitOnCharL]
  | cons c cs ih =>
    simp at h
    have hc : ¬ c = sep := fun hcc => h.1 hcc.symm
    simp [splitOnCharL, hc, ih h.2]

/-- Splitting a join recovers the fields, provided none contains `sep`. -/
theorem splitOnCharL_joinOnCharL (sep : Char) (xs : List (List Char))
    (hne : xs ≠ []) (h : ∀ p ∈ xs, sep ∉ p) :
    splitOnCharL sep (joinOnCharL sep xs) = xs := by
  induction xs with
  | nil => exact absurd rfl hne
  | cons x ys ih =>
    cases ys with
    | nil =>
      simp [joinOnCharL]
      exact splitOnCharL_of_no_sep sep x (h x (by simp))
    | cons y zs =>
      have hx : sep ∉ x := h x (by simp)
      have hrest : ∀ p ∈ y :: zs, sep ∉ p := by
        intro p hp
        exact h p (by simp [hp])
      simp only [joinOnCharL]
      rw [splitOnCharL_append sep x _ hx, ih (by simp) hrest]

theorem joinOnChar_splitOnChar (sep : Char) (s : String) :
    joinOnChar sep (splitOnChar sep s) = s := by
  cases s with
  | mk data =>
    simp only [joinOnChar, splitOnChar, List.map_map]
    have h1 : (String.data ∘ String.mk) = (id : List Char → List Char) := by
      funext l
      rfl
    rw [h1, List.map_id, joinOnCharL_splitOnCharL]

theorem splitOnChar_joinOnChar (sep : Char) (xs : List String)
    (hne : xs ≠ []) (h : ∀ p ∈ xs, sep ∉ p.data) :
    splitOnChar sep (joinOnChar sep xs) = xs := by
  simp only [splitOnChar, joinOnChar]
  rw [splitOnCharL_joinOnCharL sep (xs.map String.data)
        (by simpa using hne)
        (by intro p hp
            simp at hp
            obtain ⟨q, hq, rfl⟩ := hp
            exact h q hq)]
  rw [List.map_map]
  have h2 : (String.mk ∘ String.data) = (id : String → String) := by
    funext q
    cases q
    rfl
  rw [h2, List.map_id]

theorem mem_splitOnChar_no_sep (sep : Char) (s : String) :
    ∀ p ∈ splitOnChar sep s, sep ∉ p.data := by
  intro p hp
  simp only [splitOnChar, List.mem_map] at hp
  obtain ⟨l, hl, rfl⟩ := hp
  exact splitOnCharL_no_sep sep s.data l hl

/-- Python `int(s)` on a string of decimal digits. -/
def decimalValue (l : List Char) : Nat :=
  l.foldl (fun n c => n * 10 + (c.toNat - 48)) 0

/-- Python `int(s, 16)` digit value: `0-9`, `a-f`, `A-F`. -/
def hexDigitValue (c : Char) : Option Nat :=
  if '0' ≤ c ∧ c ≤ '9' then some (c.toNat - 48)
  else if 'a' ≤ c ∧ c ≤ 'f' then some (c.toNat - 87)
  else if 'A' ≤ c ∧ c ≤ 'F' then some (c.toNat - 55)
  else none

/-- CPython `IPv4Address._parse_octet`: nonempty, decimal digits only, at
most 3 characters, no leading zero, value at most 255. -/
def parse_octet (s : String) : Option Nat :=
  let l := s.data
  if l = [] then none
  else if ¬ l.all (fun c => c.isDigit) then none
  else if l.length > 3 then none
  else if l.headD ' ' = '0' ∧ l.length > 1 then none
  else if decimalValue l > 255 then none
  else some (decimalValue l)

/-- CPython `IPv4Address(addr_str)` on a string: rejects `/`, splits on
`.` into exactly four octets, and returns the 32-bit integer value. -/
def ipv4_int (s : String) : Option Nat :=
  if '/' ∈ s.data then none
  else if s.data = [] then none
  else
    let octets := splitOnChar '.' s
    if octets.length ≠ 4 then none
    else
      match octets.mapM parse_octet with
      | none => none
      | some vs => some (vs.foldl (fun acc v => acc * 256 + v) 0)

/-- CPython `IPv6Address._parse_hextet`: hex digits only, at most 4 of
them, nonempty (`int('', 16)` raises). -/
def parse_hextet (s : String) : Option Nat :=
  let l := s.data
  if ¬ l.all (fun c => (hexDigitValue c).isSome) then none
  else if l.length > 4 then none
  else if l = [] then none
  else some (l.foldl (fun n c => n * 16 + (hexDigitValue c).getD 0) 0)

/-- Lowercase hex rendering, as CPython's `'%x' % value`. -/
def hexRender (n : Nat) : String :=
  String.mk (Nat.toDigits 16 n)

/-- Indices of empty fields strictly between the first and last part,
as scanned by CPython `IPv6Address._ip_int_from_string`. -/
def interiorEmptyIndices (parts : List String) : List Nat :=
  (List.range parts.length).filter
    (fun i => decide (0 < i) && decide (i + 1 < parts.length) && (parts.getD i "x" == ""))

/-- CPython `IPv6Address._ip_int_from_string` as a validity predicate:
split on `:`, expand a trailing dotted IPv4 suffix into two hextets,
locate the single `::`, check the part-count bookkeeping, and require
every retained part to be a valid hextet. -/
def ipv6_parts_ok (addr : String) : Bool :=
  if addr.data = [] then false
  else
    let parts0 := splitOnChar ':' addr
    if parts0.length < 3 then false
    else
      let lastPart := parts0.getLastD ""
      let expanded : Option (List String) :=
        if '.' ∈ lastPart.data then
          match ipv4_int lastPart with
          | none => none
          | some v =>
            some (parts0.dropLast ++ [hexRender ((v / 65536) % 65536), hexRender (v % 65536)])
        else some parts0
      match expanded with
      | none => false
      | some parts =>
        if parts.length > 9 then false
        else
          let empties := interiorEmptyIndices parts
          if empties.length ≥ 2 then false
          else
            match empties.headD 0, empties.isEmpty with
            | _, true =>
              -- no `::`: exactly 8 parts, none of the endpoints empty
              if parts.length ≠ 8 then false
              else if parts.headD "" = "" then false
              else if parts.getLastD "" = "" then false
              else parts.all (fun p => (parse_hextet p).isSome)
            | si, false =>
              let n := parts.length
              let partsHi0 := si
              let partsLo0 := n - si - 1
              if parts.headD "x" = "" ∧ partsHi0 - 1 ≠ 0 then false
              else
                let partsHi := if parts.headD "x" = "" then partsHi0 - 1 else partsHi0
                if parts.getLastD "x" = "" ∧ partsLo0 - 1 ≠ 0 then false
                else
                  let partsLo := if parts.getLastD "x" = "" then partsLo0 - 1 else partsLo0
                  if partsHi + partsLo > 7 then false
                  else
                    (parts.take partsHi ++ parts.drop (n - partsLo)).all
                      (fun p => (parse_hextet p).isSome)

/-- CPython `IPv6Address._split_scope_id`: partition on the first `%`;
a present separator demands a nonempty scope id with no further `%`. -/
def partitionPercent : List Char → List Char × Option (List Char)
  | [] => ([], none)
  | c :: cs =>
    if c = '%' then ([], some cs)
    else
      let r := partitionPercent cs
      (c :: r.1, r.2)

/-- CPython `IPv6Address(addr_str)` on a string: rejects `/`, strips a
valid scope id, and parses the remaining address. -/
def is_ipv6 (s : String) : Bool :=
  if '/' ∈ s.data then false
  else
    let r := partitionPercent s.data
    match r.2 with
    | none => ipv6_parts_ok (String.mk r.1)
    | some scope =>
      if scope = [] ∨ '%' ∈ scope then false
      else ipv6_parts_ok (String.mk r.1)

/-- CPython `ipaddress.ip_address(s)` succeeds: IPv4 first, IPv6 next. -/
def ip_address_ok (s : String) : Bool :=
  (ipv4_int s).isSome || is_ipv6 s

/-- Python `dict.get(key, [])` on a string-keyed dict of IP lists. -/
def dictGet (d : List (String × List String)) (key : String) : List String :=
  match d.find? (fun p => p.1 == key) with
  | none => []
  | some p => p.2

end Py

/-- A Vectra host as consumed by the adapters: the fields the adapter code
reads (`host.ip`, `host.name`, `host.blocked_elements`). -/
structure VectraHost where
  name : String
  ip : String
  blocked_elements : List (String × List String)
deriving DecidableEq, Repr

/-- A Vectra account; neither adapter reads any field of it. -/
structure VectraAccount where
  id : Nat
deriving DecidableEq, Repr

/-- A Vectra detection: `detection.id`, `detection.dst_ips`,
`detection.blocked_elements`. -/
structure VectraDetection where
  id : Nat
  dst_ips : List String
  blocked_elements : List (String × List String)
deriving DecidableEq, Repr

/-- A static destination-IP set: `ips.dst_ips`. -/
structure VectraStaticIP where
  dst_ips : List String
deriving DecidableEq, Repr

namespace Sophos

/-- Outcome of one Sophos adapter verb. `state` is the text of the
`ListOfIPAddresses` field of the named IPHost resource after the call,
`result` the Python return value, `fetches` the number of `<Get>` HTTP
calls issued, and `pushed` the `ListOfIPAddresses` field of the `<Set>`
HTTP call when one was issued. -/
structure CallResult where
  state : String
  result : List String
  fetches : Nat
  pushed : Option String
deriving DecidableEq, Repr

/-- `Client._validate_ip_address`: `ipaddress.ip_address(ip)` succeeds. -/
def validate_ip_address (ip : String) : Bool :=
  Py.ip_address_ok ip

/-- `Client._get_blocked_ips`: fetch the named IPHost resource and split
its `ListOfIPAddresses` text on commas. The model assumes exactly one
IPHost matches the configured name (otherwise the code warns or exits). -/
def get_blocked_ips (state : String) : List String :=
  Py.splitOnChar ',' state

/-- The comma-joined `ListOfIPAddresses` field sent by
`Client._update_blocked_ips` (`ip_csv = ",".join(ips_to_block)`). -/
def ip_csv (ips_to_block : List String) : String :=
  Py.joinOnChar ',' ips_to_block

/-- `Client._block_ip`: validate the IP, fetch the current list, and if
the IP is absent append it and push the updated list; return `[ip]` only
when the push reported embedded status "200" (`push_ok`). -/
def block_ip (state : String) (ip : String) (push_ok : Bool) : CallResult :=
  if validate_ip_address ip then
    let blocked_ips := get_blocked_ips state
    if ip ∉ blocked_ips then
      let blocked_ips' := blocked_ips ++ [ip]
      if push_ok then
        ⟨ip_csv blocked_ips', [ip], 1, some (ip_csv blocked_ips')⟩
      else
        ⟨state, [], 1, some (ip_csv blocked_ips')⟩
    else
      ⟨state, [], 1, none⟩
  else
    ⟨state, [], 0, none⟩

/-- `Client._unblock_ip`: validate the IP, fetch the current list, and if
the IP is present remove its first occurrence and push the updated list;
return `[ip]` only when the push succeeded. -/
def unblock_ip (state : String) (ip : String) (push_ok : Bool) : CallResult :=
  if validate_ip_address ip then
    let blocked_IPs := get_blocked_ips state
    if ip ∈ blocked_IPs then
      let blocked_IPs' := blocked_IPs.erase ip
      if push_ok then
        ⟨ip_csv blocked_IPs', [ip], 1, some (ip_csv blocked_IPs')⟩
      else
        ⟨state, [], 1, some (ip_csv blocked_IPs')⟩
    else
      ⟨state, [], 1, none⟩
  else
    ⟨state, [], 0, none⟩

/-- `Client.block_host`: delegates to `_block_ip` on `host.ip`. -/
def block_host (state : String) (host : VectraHost) (push_ok : Bool) : CallResult :=
  block_ip state host.ip push_ok

/-- `Client.unblock_host`: delegates to `_unblock_ip` on `host.ip`. -/
def unblock_host (state : String) (host : VectraHost) (push_ok : Bool) : CallResult :=
  unblock_ip state host.ip push_ok

/-- `Client.block_account`: warning log, empty return, no HTTP call. -/
def block_account (state : String) (_account : VectraAccount) : CallResult :=
  ⟨state, [], 0, none⟩

/-- `Client.unblock_account`: warning log, empty return, no HTTP call. -/
def unblock_account (state : String) (_account : VectraAccount) : CallResult :=
  ⟨state, [], 0, none⟩

/-- `Client.block_detection`: warning log, empty return, no HTTP call. -/
def block_detection (state : String) (_detection : VectraDetection) : CallResult :=
  ⟨state, [], 0, none⟩

/-- `Client.unblock_detection`: empty return, no HTTP call. -/
def unblock_detection (state : String) (_detection : VectraDetection) : CallResult :=
  ⟨state, [], 0, none⟩

/-- `Client.block_static_dst_ips`: warning log, empty return, no HTTP call. -/
def block_static_dst_ips (state : String) (_ips : VectraStaticIP) : CallResult :=
  ⟨state, [], 0, none⟩

/-- `Client.unblock_static_dst_ips`: warning log, empty return, no HTTP call. -/
def unblock_static_dst_ips (state : String) (_ips : VectraStaticIP) : CallResult :=
  ⟨state, [], 0, none⟩

end Sophos

/-- A Python exception as surfaced to the caller of an adapter verb. -/
inductive PyError where
  | attributeError (name : String)
  | nameError (name : String)
deriving DecidableEq, Repr

namespace Common

/-- `common._get_password(system, key, modify=(store_keys, update_keys))`:
read the persisted secret; prompt exactly when refresh is forced or the
persisted value is `None` (the empty string is NOT `None` and is returned
as-is); optionally re-persist. Returns the secret (possibly `None` if the
operator declined the prompt) and whether a prompt was issued. -/
def get_password (stored : Option String) (store_keys update_keys : Bool)
    (prompt_result : Option String) : Option String × Bool :=
  if update_keys || stored.isNone then (prompt_result, true)
  else (stored, false)

end Common

namespace Pan

/-- One configured PAN firewall endpoint, as built in `Client.__init__`:
`{"url": url, "api_key": token}`. -/
structure Firewall where
  url : String
  api_key : String
deriving DecidableEq, Repr

/-- One HTTP POST to a PAN endpoint: target URL and the `cmd` form field. -/
structure Request where
  url : String
  cmd : String
deriving DecidableEq, Repr

/-- The `<entry .../>` XML fragment built for one IP and tag in
`_register_address` / `_unregister_address`. -/
def entry_xml (ip tag : String) : String :=
  "<entry ip=\"" ++ ip ++ "\"><tag><member>" ++ tag ++ "</member></tag></entry>"

/-- The batched `cmd` body of `_register_address`. -/
def register_command (ip_addresses : List String) (tag : String) : String :=
  "<uid-message><version>1.0</version><type>update</type><payload><register>"
    ++ String.join (ip_addresses.map (fun ip => entry_xml ip tag))
    ++ "</register></payload></uid-message>"

/-- The batched `cmd` body of `_unregister_address`. -/
def unregister_command (ip_addresses : List String) (tag : String) : String :=
  "<uid-message><version>1.0</version><type>update</type><payload><unregister>"
    ++ String.join (ip_addresses.map (fun ip => entry_xml ip tag))
    ++ "</unregister></payload></uid-message>"

/-- `Client._register_address`: build one batched command, POST it once,
and return the input list on HTTP 200/201, the empty list otherwise.
The first component is the list of HTTP requests issued; `status_code`
is the response status of that single POST. -/
def register_address (firewall : Firewall) (ip_addresses : List String)
    (tag : String) (status_code : Nat) : List Request × List String :=
  ([⟨firewall.url ++ "/api/", register_command ip_addresses tag⟩],
   if status_code ∈ [200, 201] then ip_addresses else [])

/-- `Client._unregister_address`: same shape with the unregister payload. -/
def unregister_address (firewall : Firewall) (ip_addresses : List String)
    (tag : String) (status_code : Nat) : List Request × List String :=
  ([⟨firewall.url ++ "/api/", unregister_command ip_addresses tag⟩],
   if status_code ∈ [200, 201] then ip_addresses else [])

/-- `Client._get_keyring_password`: normalize an unset keyring entry,
which may read back as `None` or `''`, to `None`. -/
def get_keyring_password (response : Option String) : Option String :=
  match response with
  | none => none
  | some s => if s = "" then none else some s

/-- Outcome of a successful `Client._get_api_token` call: the returned
token, the number of interactive credential prompts issued, and the
number of keygen POSTs issued. -/
structure TokenOutcome where
  api_token : String
  prompts : Nat
  keygen_posts : Nat
deriving DecidableEq, Repr

/-- `Client._get_api_token(pan_url, modify)`: read the cached token from
the keyring; when it is absent or `modify` is truthy, prompt for username
and password and bind `payload`. The keygen POST then executes
UNCONDITIONALLY (it sits outside the `if` block), so on the cached-token
path it evaluates the never-assigned local `payload` and raises
`NameError`. `keygen_key` is the key the keygen XML response carries. -/
def get_api_token (cached : Option String) (modify_truthy : Bool)
    (keygen_key : String) : Except PyError TokenOutcome :=
  let api_token := get_keyring_password cached
  if api_token.isNone || modify_truthy then
    Except.ok { api_token := keygen_key, prompts := 2, keygen_posts := 1 }
  else
    Except.error (PyError.nameError "payload")

/-- Instance attributes assigned on `self` in `Client.__init__`. -/
def instance_attribute_names : List String :=
  ["name", "logger", "firewalls", "verify", "internal_block_tag", "external_block_tag"]

/-- Methods defined by `class Client` in `pan.py`. -/
def client_method_names : List String :=
  ["__init__", "_get_keyring_password", "block_host", "block_account",
   "unblock_host", "unblock_account", "groom_host", "block_detection",
   "unblock_detection", "block_static_dst_ips", "unblock_static_dst_ips",
   "_get_api_token", "_register_address", "_unregister_address"]

/-- Modelled from the spec: the `ThirdPartyInterface` base class lives in
`third_party_clients/third_party_interface.py`, which is not under `src/`;
per the spec's section 6 it exposes exactly the nine adapter verbs
consistent across both vendors. -/
def interface_method_names : List String :=
  ["block_host", "unblock_host", "block_account", "unblock_account",
   "groom_host", "block_detection", "unblock_detection",
   "block_static_dst_ips", "unblock_static_dst_ips"]

/-- Every name resolvable on a `Client` instance: instance attributes,
class methods, inherited interface methods. -/
def resolvable_names : List String :=
  instance_attribute_names ++ client_method_names ++ interface_method_names

/-- Python attribute lookup `self.<name>` followed by a call: yields the
call's value when the name resolves, `AttributeError` otherwise. -/
def getattr_call {α : Type} (name : String) (call : Unit → α) : Except PyError α :=
  if name ∈ resolvable_names then Except.ok (call ()) else Except.error (PyError.attributeError name)

/-- `Client.block_host`: `_register_address` on `[host.ip]` with the
internal-block tag against every firewall, ignoring each call's return;
then return `[host.ip]` unconditionally. -/
def block_host (firewalls : List Firewall) (host : VectraHost)
    (internal_block_tag : String) (status : Firewall → Nat) : List Request × List String :=
  let ip_address := host.ip
  ((firewalls.map (fun fw => (register_address fw [ip_address] internal_block_tag (status fw)).1)).flatten,
   [ip_address])

/-- `Client.unblock_host`: `_unregister_address` on the host's previously
blocked elements for this adapter against every firewall; returns them. -/
def unblock_host (firewalls : List Firewall) (host : VectraHost)
    (internal_block_tag : String) (status : Firewall → Nat) : List Request × List String :=
  let ip_addresses := Py.dictGet host.blocked_elements "PAN Client"
  ((firewalls.map (fun fw => (unregister_address fw ip_addresses internal_block_tag (status fw)).1)).flatten,
   ip_addresses)

/-- `Client.block_account`: warning log, empty return, no HTTP call. -/
def block_account (_account : VectraAccount) : List Request × List String :=
  ([], [])

/-- `Client.unblock_account`: warning log, empty return, no HTTP call. -/
def unblock_account (_account : VectraAccount) : List Request × List String :=
  ([], [])

/-- `Client.groom_host`: warning log, empty return, no HTTP call. -/
def groom_host (_host : VectraHost) : List Request × List String :=
  ([], [])

/-- The loop `for firewall in self.firewalls: self.register_address(...)`
of `block_detection` / `block_static_dst_ips`: each iteration resolves the
attribute `register_address` on `self` before calling it. -/
def register_loop (firewalls : List Firewall) (ip_addresses : List String)
    (tag : String) (status : Firewall → Nat) : Except PyError (List Request) :=
  match firewalls with
  | [] => Except.ok []
  | fw :: rest =>
    match getattr_call "register_address" (fun _ => (register_address fw ip_addresses tag (status fw)).1) with
    | Except.error e => Except.error e
    | Except.ok reqs =>
      match register_loop rest ip_addresses tag status with
      | Except.error e => Except.error e
      | Except.ok more => Except.ok (reqs ++ more)

/-- The loop `for firewall in self.firewalls: self.unregister_address(...)`
of `unblock_detection` / `unblock_static_dst_ips`. -/
def unregister_loop (firewalls : List Firewall) (ip_addresses : List String)
    (tag : String) (status : Firewall → Nat) : Except PyError (List Request) :=
  match firewalls with
  | [] => Except.ok []
  | fw :: rest =>
    match getattr_call "unregister_address" (fun _ => (unregister_address fw ip_addresses tag (status fw)).1) with
    | Except.error e => Except.error e
    | Except.ok reqs =>
      match unregister_loop rest ip_addresses tag status with
      | Except.error e => Except.error e
      | Except.ok more => Except.ok (reqs ++ more)

/-- `Client.block_detection`: loop `self.register_address` over every
firewall with `detection.dst_ips` and the external-block tag, then
return `detection.dst_ips`. -/
def block_detection (firewalls : List Firewall) (detection : VectraDetection)
    (external_block_tag : String) (status : Firewall → Nat) :
    Except PyError (List Request × List String) :=
  match register_loop firewalls detection.dst_ips external_block_tag status with
  | Except.error e => Except.error e
  | Except.ok reqs => Except.ok (reqs, detection.dst_ips)

/-- `Client.unblock_detection`: loop `self.unregister_address` over every
firewall with the detection's previously blocked elements. -/
def unblock_detection (firewalls : List Firewall) (detection : VectraDetection)
    (external_block_tag : String) (status : Firewall → Nat) :
    Except PyError (List Request × List String) :=
  let ip_addresses := Py.dictGet detection.blocked_elements "PAN Client"
  match unregister_loop firewalls ip_addresses external_block_tag status with
  | Except.error e => Except.error e
  | Except.ok reqs => Except.ok (reqs, ip_addresses)

/-- `Client.block_static_dst_ips`: loop `self.register_address` over every
firewall with `ips.dst_ips` and the external-block tag. -/
def block_static_dst_ips (firewalls : List Firewall) (ips : VectraStaticIP)
    (external_block_tag : String) (status : Firewall → Nat) :
    Except PyError (List Request × List String) :=
  match register_loop firewalls ips.dst_ips external_block_tag status with
  | Except.error e => Except.error e
  | Except.ok reqs => Except.ok (reqs, ips.dst_ips)

/-- `Client.unblock_static_dst_ips`: loop `self.unregister_address` over
every firewall with `ips.dst_ips` and the external-block tag. -/
def unblock_static_dst_ips (firewalls : List Firewall) (ips : VectraStaticIP)
    (external_block_tag : String) (status : Firewall → Nat) :
    Except PyError (List Request × List String) :=
  match unregister_loop firewalls ips.dst_ips external_block_tag status with
  | Except.error e => Except.error e
  | Except.ok reqs => Except.ok (reqs, ips.dst_ips)

end Pan

theorem erase_append_self_of_not_mem (l : List String) (a : String) (h : a ∉ l) :
    (l ++ [a]).erase a = l := by
  induction l with
  | nil => simp
  | cons b t ih =>
    simp only [List.mem_cons, not_or] at h
    have hba : ¬ (b = a) := fun h' => h.1 h'.symm
    simp [List.erase_cons, hba, ih h.2]

/-- C1. Corrected form: for the Sophos adapter, blocking a syntactically
valid IP that is already present in the fetched block list pushes no
update at all (hence no duplicate entry), leaves the resource unchanged,
and returns the EMPTY list — not a list containing the IP. -/
theorem sophos_block_host_already_present_noop (st : String) (host : VectraHost) (ok : Bool)
    (hv : Sophos.validate_ip_address host.ip = true)
    (hm : host.ip ∈ Sophos.get_blocked_ips st) :
    Sophos.block_host st host ok = ⟨st, [], 1, none⟩ := by
  simp [Sophos.block_host, Sophos.block_ip, hv, hm]

/-- C1 witness: the corrected statement at the concrete block list
`"10.0.0.1,10.0.0.2"` and IP `10.0.0.1`. -/
theorem sophos_block_host_already_present_noop_witness :
    (Sophos.validate_ip_address "10.0.0.1" = true ∧
      "10.0.0.1" ∈ Sophos.get_blocked_ips "10.0.0.1,10.0.0.2") ∧
    Sophos.block_host "10.0.0.1,10.0.0.2" ⟨"host1", "10.0.0.1", []⟩ true
      = ⟨"10.0.0.1,10.0.0.2", [], 1, none⟩ :=
  ⟨⟨by decide, by decide⟩,
    sophos_block_host_already_present_noop "10.0.0.1,10.0.0.2" ⟨"host1", "10.0.0.1", []⟩ true
      (by decide) (by decide)⟩

/-- C1 counterexample: with the block list `"10.0.0.1,10.0.0.2"` already
containing the valid IP `10.0.0.1`, `block_host` returns `[]`, not a list
still containing the IP as the claim states. -/
theorem sophos_block_host_already_present_returns_empty :
    Sophos.validate_ip_address "10.0.0.1" = true ∧
    "10.0.0.1" ∈ Sophos.get_blocked_ips "10.0.0.1,10.0.0.2" ∧
    (Sophos.block_host "10.0.0.1,10.0.0.2" ⟨"host1", "10.0.0.1", []⟩ true).result = [] := by
  refine ⟨by decide, by decide, ?_⟩
  decide

/-- C4. Corrected form: for the Sophos adapter, `block_host` immediately
followed by `unblock_host` with the same syntactically valid IP restores
the `ListOfIPAddresses` resource text to its pre-block contents, assuming
both pushes succeed, PROVIDED the IP was not already present in the
fetched list and contains no comma. -/
theorem sophos_block_unblock_roundtrip (st : String) (host : VectraHost)
    (hv : Sophos.validate_ip_address host.ip = true)
    (hm : host.ip ∉ Sophos.get_blocked_ips st)
    (hc : ',' ∉ host.ip.data) :
    (Sophos.unblock_host (Sophos.block_host st host true).state host true).state = st := by
  have hblock : (Sophos.block_host st host true).state
      = Sophos.ip_csv (Sophos.get_blocked_ips st ++ [host.ip]) := by
    simp [Sophos.block_host, Sophos.block_ip, hv, hm]
  have hL : Sophos.get_blocked_ips (Sophos.ip_csv (Sophos.get_blocked_ips st ++ [host.ip]))
      = Sophos.get_blocked_ips st ++ [host.ip] := by
    unfold Sophos.get_blocked_ips Sophos.ip_csv
    apply Py.splitOnChar_joinOnChar
    · simp
    · intro p hp
      rcases List.mem_append.mp hp with h | h
      · exact Py.mem_splitOnChar_no_sep ',' st p h
      · simp at h
        subst h
        exact hc
  have hmem : host.ip ∈ Sophos.get_blocked_ips st ++ [host.ip] := by simp
  have herase : (Sophos.get_blocked_ips st ++ [host.ip]).erase host.ip
      = Sophos.get_blocked_ips st := erase_append_self_of_not_mem _ _ hm
  rw [hblock]
  simp only [Sophos.unblock_host, Sophos.unblock_ip, hv, if_true, hL]
  simp only [hmem, if_true, herase, if_pos trivial]
  simp [Sophos.ip_csv, Sophos.get_blocked_ips, Py.joinOnChar_splitOnChar]

/-- C4 witness: the corrected round trip at the concrete list
`"10.0.0.1,10.0.0.2"` with the fresh IP `10.0.0.3`. -/
theorem sophos_block_unblock_roundtrip_witness :
    (Sophos.validate_ip_address "10.0.0.3" = true ∧
      "10.0.0.3" ∉ Sophos.get_blocked_ips "10.0.0.1,10.0.0.2" ∧
      ',' ∉ "10.0.0.3".data) ∧
    (Sophos.unblock_host
        (Sophos.block_host "10.0.0.1,10.0.0.2" ⟨"host1", "10.0.0.3", []⟩ true).state
        ⟨"host1", "10.0.0.3", []⟩ true).state = "10.0.0.1,10.0.0.2" :=
  ⟨⟨by decide, by decide, by decide⟩,
    sophos_block_unblock_roundtrip "10.0.0.1,10.0.0.2" ⟨"host1", "10.0.0.3", []⟩
      (by decide) (by decide) (by decide)⟩

/-- C4 counterexample: with the resource holding `"10.0.0.1"` and the
valid IP `10.0.0.1` already present, block is a no-op but unblock removes
the entry, so the round trip ends at `""` rather than the pre-block
contents — the claim fails without the not-already-present proviso. -/
theorem sophos_block_unblock_roundtrip_counterexample :
    Sophos.validate_ip_address "10.0.0.1" = true ∧
    (Sophos.unblock_host
        (Sophos.block_host "10.0.0.1" ⟨"host1", "10.0.0.1", []⟩ true).state
        ⟨"host1", "10.0.0.1", []⟩ true).state ≠ "10.0.0.1" := by
  refine ⟨by decide, ?_⟩
  decide

/-- C8. For the Sophos adapter, a string that is not a syntactically valid
IPv4/IPv6 address makes `block_host` and `unblock_host` return the empty
list, leave the resource untouched, and issue no HTTP call at all
(no fetch, no update). -/
theorem sophos_invalid_ip_silent_noop (st : String) (host : VectraHost) (ok : Bool)
    (hv : Sophos.validate_ip_address host.ip = false) :
    Sophos.block_host st host ok = ⟨st, [], 0, none⟩ ∧
    Sophos.unblock_host st host ok = ⟨st, [], 0, none⟩ := by
  constructor
  · simp [Sophos.block_host, Sophos.block_ip, hv]
  · simp [Sophos.unblock_host, Sophos.unblock_ip, hv]

/-- C8 witness: the invalid input `"notanip"` against the block list
`"10.0.0.1"`. -/
theorem sophos_invalid_ip_silent_noop_witness :
    Sophos.validate_ip_address "notanip" = false ∧
    (Sophos.block_host "10.0.0.1" ⟨"host1", "notanip", []⟩ true = ⟨"10.0.0.1", [], 0, none⟩ ∧
      Sophos.unblock_host "10.0.0.1" ⟨"host1", "notanip", []⟩ true = ⟨"10.0.0.1", [], 0, none⟩) :=
  ⟨by decide,
    sophos_invalid_ip_silent_noop "10.0.0.1" ⟨"host1", "notanip", []⟩ true (by decide)⟩

/-- C9. Concrete Sophos scenario: with the resource holding
`"10.0.0.1,10.0.0.2"`, blocking `10.0.0.3` pushes exactly
`"10.0.0.1,10.0.0.2,10.0.0.3"` (the new IP appended at the end) and, the
push succeeding, returns `["10.0.0.3"]`. -/
theorem sophos_concrete_block_scenario :
    (Sophos.block_host "10.0.0.1,10.0.0.2" ⟨"host1", "10.0.0.3", []⟩ true).pushed
      = some "10.0.0.1,10.0.0.2,10.0.0.3" ∧
    (Sophos.block_host "10.0.0.1,10.0.0.2" ⟨"host1", "10.0.0.3", []⟩ true).result
      = ["10.0.0.3"] ∧
    (Sophos.block_host "10.0.0.1,10.0.0.2" ⟨"host1", "10.0.0.3", []⟩ true).state
      = "10.0.0.1,10.0.0.2,10.0.0.3" := by
  refine ⟨?_, ?_, ?_⟩ <;> decide

/-- C7. The PAN register call (and the unregister call) issues exactly one
batched HTTP request; its command body carries exactly one `<entry>` per
supplied IP — one entry per list element, each built from an IP the caller
supplied, never any other address. -/
theorem pan_register_single_batched_request (fw : Pan.Firewall) (ips : List String)
    (tag : String) (s : Nat) :
    (Pan.register_address fw ips tag s).1
      = [⟨fw.url ++ "/api/", Pan.register_command ips tag⟩] ∧
    (Pan.unregister_address fw ips tag s).1
      = [⟨fw.url ++ "/api/", Pan.unregister_command ips tag⟩] ∧
    (ips.map (fun ip => Pan.entry_xml ip tag)).length = ips.length ∧
    (∀ e ∈ ips.map (fun ip => Pan.entry_xml ip tag), ∃ ip ∈ ips, e = Pan.entry_xml ip tag) := by
  refine ⟨rfl, rfl, by simp, ?_⟩
  intro e he
  simp only [List.mem_map] at he
  obtain ⟨ip, hip, rfl⟩ := he
  exact ⟨ip, hip, rfl⟩

/-- C7 witness: two supplied IPs produce one request whose entry list has
exactly two entries. -/
theorem pan_register_single_batched_request_witness :
    (Pan.register_address ⟨"https://fw1", "KEY"⟩ ["1.1.1.1", "2.2.2.2"] "etag" 200).1.length = 1 ∧
    ((["1.1.1.1", "2.2.2.2"] : List String).map (fun ip => Pan.entry_xml ip "etag")).length = 2 := by
  have h := pan_register_single_batched_request ⟨"https://fw1", "KEY"⟩ ["1.1.1.1", "2.2.2.2"] "etag" 200
  constructor
  · rw [h.1]
    rfl
  · rw [h.2.2.1]
    rfl

/-- C5. Corrected form: the inner `_register_address` does return the
empty list on a non-2xx status, but `block_host` ignores that value and
returns `[host.ip]` unconditionally, whatever the HTTP status was. -/
theorem pan_block_host_returns_input (firewalls : List Pan.Firewall) (host : VectraHost)
    (tag : String) (status : Pan.Firewall → Nat) :
    (Pan.block_host firewalls host tag status).2 = [host.ip] ∧
    (∀ fw ips tg s, s ≠ 200 → s ≠ 201 → (Pan.register_address fw ips tg s).2 = []) := by
  refine ⟨rfl, ?_⟩
  intro fw ips tg s h200 h201
  simp [Pan.register_address, h200, h201]

/-- C5 witness: one endpoint answering 500 — the register helper returns
`[]`, yet `block_host` still returns the input IP. -/
theorem pan_block_host_returns_input_witness :
    (Pan.block_host [⟨"https://fw1", "KEY"⟩] ⟨"host1", "1.2.3.4", []⟩ "itag" (fun _ => 500)).2
      = ["1.2.3.4"] ∧
    (Pan.register_address ⟨"https://fw1", "KEY"⟩ ["1.2.3.4"] "itag" 500).2 = [] := by
  have h := pan_block_host_returns_input [⟨"https://fw1", "KEY"⟩] ⟨"host1", "1.2.3.4", []⟩
    "itag" (fun _ => 500)
  exact ⟨h.1, h.2 ⟨"https://fw1", "KEY"⟩ ["1.2.3.4"] "itag" 500 (by decide) (by decide)⟩

/-- C5 counterexample: with one endpoint answering HTTP 500, `block_host`
returns `["1.2.3.4"]`, not the empty list the claim requires. -/
theorem pan_block_host_non2xx_counterexample :
    (Pan.block_host [⟨"https://fw1", "KEY"⟩] ⟨"host1", "1.2.3.4", []⟩ "itag" (fun _ => 500)).2
      ≠ [] := by
  decide

/-- C2. The code raises instead: `block_detection`, `unblock_detection`,
`block_static_dst_ips` and `unblock_static_dst_ips` call the undefined
attributes `register_address` / `unregister_address` (the methods are
named `_register_address` / `_unregister_address`), so with at least one
configured endpoint every one of these verbs raises `AttributeError` to
the caller and registers nothing. -/
theorem pan_block_detection_raises_attribute_error (fw : Pan.Firewall)
    (rest : List Pan.Firewall) (d : VectraDetection) (sip : VectraStaticIP)
    (tag : String) (status : Pan.Firewall → Nat) :
    Pan.block_detection (fw :: rest) d tag status
      = Except.error (PyError.attributeError "register_address") ∧
    Pan.unblock_detection (fw :: rest) d tag status
      = Except.error (PyError.attributeError "unregister_address") ∧
    Pan.block_static_dst_ips (fw :: rest) sip tag status
      = Except.error (PyError.attributeError "register_address") ∧
    Pan.unblock_static_dst_ips (fw :: rest) sip tag status
      = Except.error (PyError.attributeError "unregister_address") ∧
    "register_address" ∉ Pan.resolvable_names ∧
    "unregister_address" ∉ Pan.resolvable_names := by
  have hreg : "register_address" ∉ Pan.resolvable_names := by decide
  have hunreg : "unregister_address" ∉ Pan.resolvable_names := by decide
  refine ⟨?_, ?_, ?_, ?_, hreg, hunreg⟩
  · simp [Pan.block_detection, Pan.register_loop, Pan.getattr_call, hreg]
  · simp [Pan.unblock_detection, Pan.unregister_loop, Pan.getattr_call, hunreg]
  · simp [Pan.block_static_dst_ips, Pan.register_loop, Pan.getattr_call, hreg]
  · simp [Pan.unblock_static_dst_ips, Pan.unregister_loop, Pan.getattr_call, hunreg]

/-- C2 witness: a single endpoint and a detection carrying one
destination IP — `block_detection` surfaces `AttributeError`. -/
theorem pan_block_detection_raises_attribute_error_witness :
    Pan.block_detection [⟨"https://fw1", "KEY"⟩] ⟨7, ["1.2.3.4"], []⟩ "etag" (fun _ => 200)
      = Except.error (PyError.attributeError "register_address") :=
  (pan_block_detection_raises_attribute_error ⟨"https://fw1", "KEY"⟩ [] ⟨7, ["1.2.3.4"], []⟩
    ⟨["1.2.3.4"]⟩ "etag" (fun _ => 200)).1

/-- C3. The code crashes instead of using the cache: with a persisted
non-empty token and `modify` falsy, `_get_api_token` skips the prompt
branch but still executes the keygen POST, whose `data=payload` argument
evaluates the never-assigned local `payload` — `NameError`, not the cached
token. With `modify` truthy (as `__init__` passes, a non-empty tuple) it
re-prompts twice and re-issues the keygen POST despite the cache. -/
theorem pan_get_api_token_cached_raises_name_error (t k : String) (ht : t ≠ "") :
    Pan.get_api_token (some t) false k = Except.error (PyError.nameError "payload") ∧
    Pan.get_api_token (some t) true k = Except.ok ⟨k, 2, 1⟩ := by
  constructor
  · simp [Pan.get_api_token, Pan.get_keyring_password, ht]
  · simp [Pan.get_api_token, Pan.get_keyring_password, ht]

/-- C3 witness: cached token `"abc123"`, refresh not forced — the call
raises `NameError` instead of returning `"abc123"`. -/
theorem pan_get_api_token_cached_raises_name_error_witness :
    Pan.get_api_token (some "abc123") false "NEWKEY"
      = Except.error (PyError.nameError "payload") ∧
    Pan.get_api_token (some "abc123") true "NEWKEY" = Except.ok ⟨"NEWKEY", 2, 1⟩ :=
  pan_get_api_token_cached_raises_name_error "abc123" "NEWKEY" (by decide)

/-- C6. Corrected form: `_get_password` prompts exactly when refresh is
forced or the persisted secret is absent (`None`); a persisted EMPTY
string is returned as-is with no prompt. Only the PAN-side wrapper
`_get_keyring_password` treats `None` and `''` alike (both become
`None`), and it never prompts. -/
theorem get_password_prompts_only_on_none (sk : Bool) (p : Option String) (s : String) :
    Common.get_password (some "") sk false p = (some "", false) ∧
    Common.get_password none sk false p = (p, true) ∧
    Common.get_password (some s) sk true p = (p, true) ∧
    Pan.get_keyring_password (some "") = none ∧
    Pan.get_keyring_password none = none := by
  refine ⟨?_, ?_, ?_, by decide, by decide⟩ <;> simp [Common.get_password]

/-- C6 counterexample: a persisted empty-string secret with refresh not
forced is returned unchanged and the operator is NOT prompted, though the
claim requires a prompt. -/
theorem get_password_empty_secret_no_prompt_counterexample :
    Common.get_password (some "") false false (some "typed-secret") = (some "", false) := by
  decide

/-- C10. Every unsupported verb returns the empty list and issues no HTTP
call: the six account-, detection- and static-IP-based verbs on the
Sophos adapter, and the two account verbs plus `groom_host` on the PAN
adapter. -/
theorem unsupported_verbs_no_http_empty_return (st : String) (a : VectraAccount)
    (d : VectraDetection) (sip : VectraStaticIP) (h : VectraHost) :
    Sophos.block_account st a = ⟨st, [], 0, none⟩ ∧
    Sophos.unblock_account st a = ⟨st, [], 0, none⟩ ∧
    Sophos.block_detection st d = ⟨st, [], 0, none⟩ ∧
    Sophos.unblock_detection st d = ⟨st, [], 0, none⟩ ∧
    Sophos.block_static_dst_ips st sip = ⟨st, [], 0, none⟩ ∧
    Sophos.unblock_static_dst_ips st sip = ⟨st, [], 0, none⟩ ∧
    Pan.block_account a = ([], []) ∧
    Pan.unblock_account a = ([], []) ∧
    Pan.groom_host h = ([], []) :=
  ⟨rfl, rfl, rfl, rfl, rfl, rfl, rfl, rfl, rfl⟩
